import Mathlib

/-!
Verification of the `@iqz/logger` AppLogger wrapper (`src/app-logger.ts`).

The repository is a thin configuration façade over the winston logging
backend.  We shallowly embed:

* the severity-level enumeration and the configuration interface
  (`log-level.enum.ts` / `logger-params.interface.ts` are declared by the
  spec but their files are not in the source tree, so they are modelled
  from the spec; they agree with the doc comments in `app-logger.ts` and
  with the repository's own test suite);
* the `AppLogger` class: its mutable fields become an explicit state
  record, `init` / `_getTransports` / `_initializeStreams` / `_log` and
  the six leveled methods become state-passing functions returning
  `Except` for JavaScript `throw`;
* the filesystem as the set of existing directories (for
  `fs.existsSync` / `fs.mkdirSync`);
* the winston dispatch and the daily-rotate-file naming, which the spec
  treats as an opaque external collaborator, modelled from the spec's
  contract for them.

JavaScript semantics embedded explicitly: reading a property of
`undefined` throws a `TypeError`; an assignment `this.x = f()` whose
right-hand side throws leaves `this.x` unchanged; an empty string is
falsy (so `params.file.path` guards on nonemptiness).
-/

/-- Modelled from the spec: `src/log-level.enum.ts` is not in the source
tree.  §3 of the spec: an ordered enumeration with six ranks, highest to
lowest urgency: Error (0), Warning (1), Info (2), Verbose (3), Debug (4),
Silly (5).  The constructor names follow the backend level strings
(`'error'` … `'silly'`) that the repository's tests observe in the JSON
records, and the doc comments on the six leveled methods in
`app-logger.ts` state the same priorities 0–5. -/
inductive LogLevel
  | error
  | warn
  | info
  | verbose
  | debug
  | silly
deriving DecidableEq, Repr

/-- Urgency rank of a level: 0 = most urgent (`error`) through
5 = least urgent (`silly`), per the spec's data model and the priority
numbers in the method doc comments of `app-logger.ts`. -/
def LogLevel.priority : LogLevel → Nat
  | .error => 0
  | .warn => 1
  | .info => 2
  | .verbose => 3
  | .debug => 4
  | .silly => 5

/-- Modelled from the spec: the `console` section of `ILoggerParams`
(`src/logger-params.interface.ts` is not in the source tree).
§6: `console?: { level: SeverityLevel }`. -/
structure ConsoleParams where
  level : LogLevel
deriving DecidableEq, Repr

/-- Modelled from the spec: the `file` section of `ILoggerParams`.
§6: `file?: { path: string, level: SeverityLevel, logAsJson: boolean,
maxFileCount: integer }`. -/
structure FileParams where
  path : String
  level : LogLevel
  logAsJson : Bool
  maxFileCount : Nat
deriving DecidableEq, Repr

/-- Modelled from the spec: `ILoggerParams`, the configuration consumed
by `init`.  Both sections are optional (§6); `Option` embeds the absence
of the field. -/
structure ILoggerParams where
  console : Option ConsoleParams
  file : Option FileParams
deriving DecidableEq, Repr

/-- Options handed to `new transports.Console` in `_getTransports`
(winston's `ConsoleTransportOptions`, fields as set by the source). -/
structure ConsoleTransportOptions where
  colorize : Bool
  level : LogLevel
  handleExceptions : Bool
  humanReadableUnhandledException : Bool
  json : Bool
deriving DecidableEq, Repr

/-- Options handed to `new transports.DailyRotateFile` in
`_getTransports` (winston's `DailyRotateFileTransportOptions`, fields as
set by the source). -/
structure DailyRotateFileTransportOptions where
  filename : String
  datePattern : String
  level : LogLevel
  handleExceptions : Bool
  humanReadableUnhandledException : Bool
  json : Bool
  maxFiles : Nat
deriving DecidableEq, Repr

/-- A constructed winston transport (sink). -/
inductive TransportInstance
  | console (opts : ConsoleTransportOptions)
  | dailyRotateFile (opts : DailyRotateFileTransportOptions)
deriving DecidableEq, Repr

/-- The level at which a transport is configured (its filter level). -/
def TransportInstance.level : TransportInstance → LogLevel
  | .console opts => opts.level
  | .dailyRotateFile opts => opts.level

/-- The winston `Logger` object built by `init`: `new Logger({
transports: …, exitOnError: false })`. -/
structure Logger where
  transports : List TransportInstance
  exitOnError : Bool
deriving DecidableEq, Repr

/-- The write-stream adapter object created by `_initializeStreams`:
`{ write: (message) => this.info(message) }`.  The closure only captures
`this`, so the object itself carries no data; its `write` semantics is
`morganWrite` below. -/
structure MorganStream where
deriving DecidableEq, Repr

/-- JavaScript exceptions that the embedded code can throw. -/
inductive JsError
  /-- `TypeError: cannot read property of undefined` — e.g. evaluating
  `params.console.level` when `params.console` is `undefined`. -/
  | typeError
  /-- `new Error('Logger not initialized. Call AppLogger.Log.init()
  first. …')` thrown by `_log`; this is the spec's
  `UninitializedLoggerError`. -/
  | uninitializedLoggerError
deriving DecidableEq, Repr

/-- The mutable instance fields of the `AppLogger` class: `_logger`
(undefined until a successful `init`) and `morganWriteStream` (undefined
until `_initializeStreams` runs). -/
structure AppLogger where
  _logger : Option Logger
  morganWriteStream : Option MorganStream
deriving DecidableEq, Repr

/-- The state of a freshly constructed `AppLogger` (`private
constructor() { }` assigns nothing, so both fields are undefined). -/
def AppLogger.mkNew : AppLogger := ⟨none, none⟩

/-- The filesystem, as the set of directories that exist.  Only
`fs.existsSync` and `fs.mkdirSync` are used by the source. -/
def FsState := List String
deriving DecidableEq, Repr

/-- `fs.existsSync` on the directory model. -/
def FsState.existsSync (fs : FsState) (p : String) : Bool :=
  List.contains fs p

/-- `fs.mkdirSync` on the directory model: records the directory as
existing (the success case; failure modes such as a missing parent are
outside every claim). -/
def FsState.mkdirSync (fs : FsState) (p : String) : FsState :=
  p :: fs

/-- Node's `path.join` of two segments (POSIX separator). -/
def pathJoin (a b : String) : String := a ++ "/" ++ b

namespace AppLogger

/-- `_getTransports` from `app-logger.ts`, lines 48–82, with the
filesystem threaded through.  Faithful to the source order:

1. `consoleTransportOpt` is built first and reads
   `params.console.level` unconditionally — when `params.console` is
   absent this is a property read on `undefined` and throws a
   `TypeError` before anything else happens;
2. a `Console` transport is always pushed;
3. only if `params.file && params.file.path` is truthy (present and
   nonempty) is the `logs` folder checked/created and a
   `DailyRotateFile` transport pushed with
   `filename = path.join(params.file.path, 'logs', 'server-log')` and
   `datePattern = 'yyyy-MM-dd.log'`. -/
def _getTransports (params : ILoggerParams) (fs : FsState) :
    Except JsError (List TransportInstance × FsState) :=
  match params.console with
  | none => .error .typeError
  | some c =>
    let consoleTransportOpt : ConsoleTransportOptions :=
      { colorize := true
        level := c.level
        handleExceptions := true
        humanReadableUnhandledException := true
        json := false }
    let t : List TransportInstance := [.console consoleTransportOpt]
    match params.file with
    | some f =>
      if f.path = "" then .ok (t, fs)
      else
        let logFolderPath : String := pathJoin f.path "logs"
        let fs' : FsState :=
          if fs.existsSync logFolderPath then fs
          else fs.mkdirSync logFolderPath
        let dailyFileRotateTransportOpt : DailyRotateFileTransportOptions :=
          { filename := pathJoin (pathJoin f.path "logs") "server-log"
            datePattern := "yyyy-MM-dd.log"
            level := f.level
            handleExceptions := true
            humanReadableUnhandledException := true
            json := f.logAsJson
            maxFiles := f.maxFileCount }
        .ok (t ++ [.dailyRotateFile dailyFileRotateTransportOpt], fs')
    | none => .ok (t, fs)

/-- `_initializeStreams` from `app-logger.ts`, lines 40–46: assigns the
write-stream adapter object. -/
def _initializeStreams (st : AppLogger) : AppLogger :=
  { st with morganWriteStream := some ⟨⟩ }

/-- `init` from `app-logger.ts`, lines 26–38.  On success the `_logger`
field is replaced by a fresh `Logger` over the computed transports and
`_initializeStreams` runs; when `_getTransports` throws, the exception
is caught, logged to the console and rethrown — the assignment to
`this._logger` never happens, so the instance state (and the
filesystem) are unchanged. -/
def init (st : AppLogger) (params : ILoggerParams) (fs : FsState) :
    (AppLogger × FsState) × Option JsError :=
  match _getTransports params fs with
  | .error e => ((st, fs), some e)
  | .ok (ts, fs') =>
    ((_initializeStreams { st with _logger := some ⟨ts, false⟩ }, fs'), none)

end AppLogger

/-- One delivery of a message to one sink. -/
structure Emission where
  transport : TransportInstance
  level : LogLevel
  message : String
deriving DecidableEq, Repr

/-- Modelled from the spec: the dispatch of the winston backend, which
§1 treats as an opaque external collaborator.  §3: "A sink configured at
level L emits all messages at rank ≤ L (i.e., L and everything more
urgent)"; §4.1: sinks whose configured level is below the message's
severity silently drop it. -/
def winstonLog (ts : List TransportInstance) (lvl : LogLevel)
    (msg : String) : List Emission :=
  (ts.filter fun t => lvl.priority ≤ t.level.priority).map
    fun t => ⟨t, lvl, msg⟩

namespace AppLogger

/-- `_log` from `app-logger.ts`, lines 84–89: throws when `_logger` is
still undefined, otherwise delegates to `this._logger.log`.  Returns
the emissions the backend produces. -/
def _log (st : AppLogger) (level : LogLevel) (msg : String) :
    Except JsError (List Emission) :=
  match st._logger with
  | none => .error .uninitializedLoggerError
  | some lg => .ok (winstonLog lg.transports level msg)

/-- `error(message)` — `this._log(LogLevel.ERROR, message, meta)`. -/
def error (st : AppLogger) (msg : String) : Except JsError (List Emission) :=
  _log st .error msg

/-- `warn(message)` — `this._log(LogLevel.WARNING, message, meta)`. -/
def warn (st : AppLogger) (msg : String) : Except JsError (List Emission) :=
  _log st .warn msg

/-- `info(message)` — `this._log(LogLevel.INFO, message, meta)`. -/
def info (st : AppLogger) (msg : String) : Except JsError (List Emission) :=
  _log st .info msg

/-- `verbose(message)` — `this._log(LogLevel.VERBOSE, message, meta)`. -/
def verbose (st : AppLogger) (msg : String) : Except JsError (List Emission) :=
  _log st .verbose msg

/-- `debug(message)` — `this._log(LogLevel.DEBUG, message, meta)`. -/
def debug (st : AppLogger) (msg : String) : Except JsError (List Emission) :=
  _log st .debug msg

/-- `silly(message)` — `this._log(LogLevel.SILLY, message, meta)`. -/
def silly (st : AppLogger) (msg : String) : Except JsError (List Emission) :=
  _log st .silly msg

/-- The leveled method corresponding to a severity level, mirroring the
`switch` the repository's own test harness uses to pick one of the six
public methods. -/
def methodFor : LogLevel → AppLogger → String → Except JsError (List Emission)
  | .error => error
  | .warn => warn
  | .info => info
  | .verbose => verbose
  | .debug => debug
  | .silly => silly

/-- The semantics of `morganWriteStream.write(message)`: the adapter
object built by `_initializeStreams` is `{ write: (message) =>
this.info(message) }`, so calling `write` invokes `info` on the
captured instance; calling it while `morganWriteStream` is still
undefined is a property read on `undefined` and throws a `TypeError`. -/
def morganWrite (st : AppLogger) (msg : String) :
    Except JsError (List Emission) :=
  match st.morganWriteStream with
  | none => .error .typeError
  | some _ => info st msg

end AppLogger

/-- A calendar date, for the daily-rotation naming. -/
structure Date where
  year : Nat
  month : Nat
  day : Nat
deriving DecidableEq, Repr

/-- Modelled from the spec: the daily file naming of the rotating-file
backend, which §1 treats as an opaque external collaborator.  §6: the
layout produced is
`<config.file.path>/logs/server-log-<YYYY>-<M>-<D>.log`, one file per
calendar day, the name determined deterministically from the current
date; the repository's own test suite pins exactly this name
(`'server-log-' + year + '-' + (month + 1) + '-' + day + '.log'`
under the `logs` folder).  The backend derives the name from the
transport's configured `filename` prefix. -/
def DailyRotateFileTransportOptions.currentFile
    (o : DailyRotateFileTransportOptions) (d : Date) : String :=
  o.filename ++ "-" ++ toString d.year ++ "-" ++ toString d.month ++ "-"
    ++ toString d.day ++ ".log"

/-- The physical file (if any) to which a transport writes an entry on
date `d`: the console transport writes to no file; the rotating-file
transport writes to its current daily file. -/
def TransportInstance.fileFor : TransportInstance → Date → Option String
  | .console _, _ => none
  | .dailyRotateFile o, d => some (o.currentFile d)

/-- The static state of the `AppLogger` class: the
`private static _instance: AppLogger` field, paired with an allocation
counter so that object identity (`new AppLogger()` creating a fresh
object) is observable in the embedding.  Each instance is a pair of its
allocation number (its identity) and its field state. -/
structure AppLoggerProcess where
  _instance : Option (Nat × AppLogger)
  allocated : Nat
deriving DecidableEq, Repr

/-- The process state before the class is first touched: `_instance` is
undefined and no instance has ever been constructed. -/
def AppLoggerProcess.fresh : AppLoggerProcess := ⟨none, 0⟩

/-- The static getter `Log` from `app-logger.ts`, lines 163–165:
`return AppLogger._instance || (AppLogger._instance = new AppLogger())`.
Returns the existing instance if `_instance` is truthy, otherwise
constructs a new one, stores it in `_instance` and returns it. -/
def AppLogger.Log (s : AppLoggerProcess) :
    (Nat × AppLogger) × AppLoggerProcess :=
  match s._instance with
  | some i => (i, s)
  | none =>
    let i : Nat × AppLogger := (s.allocated, AppLogger.mkNew)
    (i, ⟨some i, s.allocated + 1⟩)

/-- The instance states reachable through the class's operations:
construction (`new AppLogger()` via the `Log` getter) and `init` (in any
filesystem, with any parameters; a throwing `init` leaves the fields
unchanged, which `AppLogger.init` already embeds).  The leveled methods,
`_log` and the adapter's `write` do not assign any field. -/
inductive Reachable : AppLogger → Prop
  | new : Reachable AppLogger.mkNew
  | initStep (st : AppLogger) (params : ILoggerParams) (fs : FsState) :
      Reachable st → Reachable (AppLogger.init st params fs).1.1

/-! ## Helper lemmas -/

/-- Membership in the winston dispatch output: a sink receives exactly
the messages whose rank is at most the sink's configured rank. -/
theorem mem_winstonLog (ts : List TransportInstance) (lvl : LogLevel)
    (msg : String) (e : Emission) :
    e ∈ winstonLog ts lvl msg ↔
      e.transport ∈ ts ∧ lvl.priority ≤ e.transport.level.priority ∧
        e.level = lvl ∧ e.message = msg := by
  unfold winstonLog
  simp only [List.mem_map, List.mem_filter, decide_eq_true_eq]
  constructor
  · rintro ⟨t, ⟨ht, hcond⟩, rfl⟩
    exact ⟨ht, hcond, rfl, rfl⟩
  · rintro ⟨ht, hcond, hl, hm⟩
    refine ⟨e.transport, ⟨ht, hcond⟩, ?_⟩
    cases e
    simp_all

/-! ## Claims -/

/-- C2: calling any of the six leveled methods (`error`, `warn`, `info`,
`verbose`, `debug`, `silly`) on a freshly constructed `AppLogger` —
the state the singleton is created in, before any `init` — throws the
`UninitializedLoggerError` (`_log`'s `Logger not initialized` error) and
produces no emission on any sink (the result is the thrown error, not an
`ok` with an emission list). -/
theorem uninitialized_method_throws (M : LogLevel) (msg : String) :
    AppLogger.methodFor M AppLogger.mkNew msg =
      .error .uninitializedLoggerError := by
  cases M <;> rfl

/-- C5: when the configuration has `file` absent and only `console`
configured, `init` leaves the filesystem unchanged (no `logs` directory
is created) and throws nothing. -/
theorem console_only_preserves_fs (c : ConsoleParams) (fs : FsState)
    (st0 : AppLogger) :
    (AppLogger.init st0 ⟨some c, none⟩ fs).1.2 = fs ∧
      (AppLogger.init st0 ⟨some c, none⟩ fs).2 = none := by
  exact ⟨rfl, rfl⟩

/-- C1: after a successful `init` whose configuration sets the console
sink's level to `L` and the file sink's level to `Lf`, logging a message
via the leveled method of severity `M` emits it on the console sink
exactly when `M.priority ≤ L.priority` and on the file sink exactly when
`M.priority ≤ Lf.priority` (ranks: Error = 0 most urgent … Silly = 5
least urgent); when `M` is less urgent than the sink's level the sink
silently drops the message (no emission, no error). -/
theorem sink_level_filtering (L Lf M : LogLevel) (msg P : String)
    (j : Bool) (n : Nat) (fs fs' : FsState) (st : AppLogger)
    (hP : P ≠ "")
    (hinit : AppLogger.init AppLogger.mkNew ⟨some ⟨L⟩, some ⟨P, Lf, j, n⟩⟩ fs
      = ((st, fs'), none)) :
    ∃ out, AppLogger.methodFor M st msg = .ok out ∧
      ((⟨.console ⟨true, L, true, true, false⟩, M, msg⟩ : Emission) ∈ out ↔
        M.priority ≤ L.priority) ∧
      ((⟨.dailyRotateFile ⟨pathJoin (pathJoin P "logs") "server-log",
          "yyyy-MM-dd.log", Lf, true, true, j, n⟩, M, msg⟩ : Emission) ∈ out ↔
        M.priority ≤ Lf.priority) := by
  simp only [AppLogger.init, AppLogger._getTransports, hP, if_false,
    AppLogger._initializeStreams, List.singleton_append, Prod.mk.injEq,
    and_true] at hinit
  obtain ⟨hst, -⟩ := hinit
  subst hst
  refine ⟨winstonLog [.console ⟨true, L, true, true, false⟩,
    .dailyRotateFile ⟨pathJoin (pathJoin P "logs") "server-log",
      "yyyy-MM-dd.log", Lf, true, true, j, n⟩] M msg, ?_, ?_, ?_⟩
  · cases M <;> rfl
  · rw [mem_winstonLog]
    simp [TransportInstance.level]
  · rw [mem_winstonLog]
    simp [TransportInstance.level]

/-- Closed witness for `sink_level_filtering`: console at `warn`, file at
`debug`, message logged at `info` — emitted on the file sink (2 ≤ 4) but
not on the console sink (2 > 1). -/
theorem sink_level_filtering_witness :
    ∃ out, AppLogger.methodFor .info
        ((AppLogger.init AppLogger.mkNew
          ⟨some ⟨.warn⟩, some ⟨"app", .debug, true, 5⟩⟩ []).1.1) "hello"
        = .ok out ∧
      ((⟨.console ⟨true, .warn, true, true, false⟩, .info, "hello"⟩ :
          Emission) ∈ out ↔
        LogLevel.priority .info ≤ LogLevel.priority .warn) ∧
      ((⟨.dailyRotateFile ⟨pathJoin (pathJoin "app" "logs") "server-log",
          "yyyy-MM-dd.log", .debug, true, true, true, 5⟩, .info, "hello"⟩ :
          Emission) ∈ out ↔
        LogLevel.priority .info ≤ LogLevel.priority .debug) :=
  sink_level_filtering .warn .debug .info "hello" "app" true 5 [] ["app/logs"]
    ((AppLogger.init AppLogger.mkNew
      ⟨some ⟨.warn⟩, some ⟨"app", .debug, true, 5⟩⟩ []).1.1)
    (by decide) (by rfl)

/-- C3: evaluation of the code at the failing input.  With `console`
absent and a valid `file` section, `init` does not succeed with no
console sink as the spec requires: `_getTransports` reads
`params.console.level` unconditionally, so `init` throws a `TypeError`,
attaches nothing, and leaves the instance and the filesystem unchanged.
(The repository's own tests call `init` with only a `file` section and
expect it to work, and the README marks `console` as optional, so the
code contradicts its own documentation and tests here.) -/
theorem console_absent_init_throws :
    AppLogger.init AppLogger.mkNew
        ⟨none, some ⟨"app", .silly, true, 5⟩⟩ []
      = ((AppLogger.mkNew, []), some .typeError) := rfl

/-- C4 counterexample: the claim quantifies over every configuration
with `file.path = P` present, but for the configuration with `file.path
= "app"` and `console` absent, `init` on an empty filesystem creates no
`app/logs` directory at all (it throws a `TypeError` first), so the
claim as stated is false at this input. -/
theorem mkdir_claim_counterexample :
    (AppLogger.init AppLogger.mkNew
        ⟨none, some ⟨"app", .silly, true, 5⟩⟩ []).1.2.existsSync
        (pathJoin "app" "logs") = false ∧
      (AppLogger.init AppLogger.mkNew
        ⟨none, some ⟨"app", .silly, true, 5⟩⟩ []).2 ≠ none := by
  exact ⟨rfl, by decide⟩

/-- C4 amended: for every configuration that `init` accepts (`console`
present — required because the code reads `params.console.level`
unconditionally) and whose `file.path` is a nonempty `P`, when `P/logs`
is absent `init` creates exactly that directory and throws nothing, and
a second `init` with the same configuration finds the directory already
present, throws nothing and leaves the filesystem unchanged (the
`existsSync` guard makes directory creation idempotent). -/
theorem mkdir_idempotent (c : ConsoleParams) (P : String) (Lf : LogLevel)
    (j : Bool) (n : Nat) (fs : FsState) (hP : P ≠ "")
    (habs : fs.existsSync (pathJoin P "logs") = false) :
    (AppLogger.init AppLogger.mkNew ⟨some c, some ⟨P, Lf, j, n⟩⟩ fs).2
        = none ∧
      (AppLogger.init AppLogger.mkNew ⟨some c, some ⟨P, Lf, j, n⟩⟩ fs).1.2
        = fs.mkdirSync (pathJoin P "logs") ∧
      (AppLogger.init
          (AppLogger.init AppLogger.mkNew ⟨some c, some ⟨P, Lf, j, n⟩⟩ fs).1.1
          ⟨some c, some ⟨P, Lf, j, n⟩⟩
          (AppLogger.init AppLogger.mkNew ⟨some c, some ⟨P, Lf, j, n⟩⟩ fs).1.2).2
        = none ∧
      (AppLogger.init
          (AppLogger.init AppLogger.mkNew ⟨some c, some ⟨P, Lf, j, n⟩⟩ fs).1.1
          ⟨some c, some ⟨P, Lf, j, n⟩⟩
          (AppLogger.init AppLogger.mkNew ⟨some c, some ⟨P, Lf, j, n⟩⟩ fs).1.2).1.2
        = fs.mkdirSync (pathJoin P "logs") := by
  have hmem : (fs.mkdirSync (pathJoin P "logs")).existsSync
      (pathJoin P "logs") = true := by
    simp [FsState.mkdirSync, FsState.existsSync, List.contains_cons]
  refine ⟨?_, ?_, ?_, ?_⟩ <;>
    simp [AppLogger.init, AppLogger._getTransports, hP, habs, hmem]

/-- Closed witness for `mkdir_idempotent` at the configuration
`{ console: { level: silly }, file: { path: 'app', level: silly,
logAsJson: true, maxFileCount: 5 } }` on an empty filesystem. -/
theorem mkdir_idempotent_witness :
    (AppLogger.init AppLogger.mkNew
        ⟨some ⟨.silly⟩, some ⟨"app", .silly, true, 5⟩⟩ []).2 = none ∧
      (AppLogger.init AppLogger.mkNew
        ⟨some ⟨.silly⟩, some ⟨"app", .silly, true, 5⟩⟩ []).1.2
        = FsState.mkdirSync [] (pathJoin "app" "logs") ∧
      (AppLogger.init
          (AppLogger.init AppLogger.mkNew
            ⟨some ⟨.silly⟩, some ⟨"app", .silly, true, 5⟩⟩ []).1.1
          ⟨some ⟨.silly⟩, some ⟨"app", .silly, true, 5⟩⟩
          (AppLogger.init AppLogger.mkNew
            ⟨some ⟨.silly⟩, some ⟨"app", .silly, true, 5⟩⟩ []).1.2).2 = none ∧
      (AppLogger.init
          (AppLogger.init AppLogger.mkNew
            ⟨some ⟨.silly⟩, some ⟨"app", .silly, true, 5⟩⟩ []).1.1
          ⟨some ⟨.silly⟩, some ⟨"app", .silly, true, 5⟩⟩
          (AppLogger.init AppLogger.mkNew
            ⟨some ⟨.silly⟩, some ⟨"app", .silly, true, 5⟩⟩ []).1.2).1.2
        = FsState.mkdirSync [] (pathJoin "app" "logs") :=
  mkdir_idempotent ⟨.silly⟩ "app" .silly true 5 [] (by decide) (by rfl)

/-- C6: after a successful `init` with `file.path = P`, every emission a
leveled method routes to a file on calendar date `d` lands in the single
file `P/logs/server-log-<year>-<month>-<day>.log` — the name is computed
by a function of the configured path and the current date alone, so on a
given day all entries share one physical file. -/
theorem daily_file_naming (L Lf M : LogLevel) (msg P : String) (j : Bool)
    (n : Nat) (fs fs' : FsState) (st : AppLogger) (d : Date)
    (out : List Emission) (hP : P ≠ "")
    (hinit : AppLogger.init AppLogger.mkNew ⟨some ⟨L⟩, some ⟨P, Lf, j, n⟩⟩ fs
      = ((st, fs'), none))
    (hout : AppLogger.methodFor M st msg = .ok out) :
    ∀ e ∈ out, ∀ f, e.transport.fileFor d = some f →
      f = pathJoin (pathJoin P "logs") "server-log" ++ "-"
        ++ toString d.year ++ "-" ++ toString d.month ++ "-"
        ++ toString d.day ++ ".log" := by
  simp only [AppLogger.init, AppLogger._getTransports, hP, if_false,
    AppLogger._initializeStreams, List.singleton_append, Prod.mk.injEq,
    and_true] at hinit
  obtain ⟨hst, -⟩ := hinit
  subst hst
  intro e he f hf
  have hout' : out = winstonLog
      [.console ⟨true, L, true, true, false⟩,
        .dailyRotateFile ⟨pathJoin (pathJoin P "logs") "server-log",
          "yyyy-MM-dd.log", Lf, true, true, j, n⟩] M msg := by
    cases M <;> exact (Except.ok.injEq _ _).mp hout.symm
  subst hout'
  rw [mem_winstonLog] at he
  obtain ⟨htr, -, -, -⟩ := he
  simp only [List.mem_cons, List.not_mem_nil, or_false] at htr
  rcases htr with h | h
  · rw [h] at hf
    exact absurd hf (by simp [TransportInstance.fileFor])
  · rw [h] at hf
    simp only [TransportInstance.fileFor, Option.some.injEq] at hf
    rw [← hf]
    rfl

/-- Closed witness for `daily_file_naming`: console and file at `silly`,
the file-sink emission of an `info` message on 2020-2-3 lands in
`app/logs/server-log-2020-2-3.log`. -/
theorem daily_file_naming_witness :
    DailyRotateFileTransportOptions.currentFile
        ⟨pathJoin (pathJoin "app" "logs") "server-log", "yyyy-MM-dd.log",
          .silly, true, true, true, 5⟩ ⟨2020, 2, 3⟩
      = pathJoin (pathJoin "app" "logs") "server-log" ++ "-"
        ++ toString (2020 : Nat) ++ "-" ++ toString (2 : Nat) ++ "-"
        ++ toString (3 : Nat) ++ ".log" :=
  daily_file_naming .silly .silly .info "hello" "app" true 5 [] ["app/logs"]
    ((AppLogger.init AppLogger.mkNew
      ⟨some ⟨.silly⟩, some ⟨"app", .silly, true, 5⟩⟩ []).1.1)
    ⟨2020, 2, 3⟩
    (winstonLog
      [.console ⟨true, .silly, true, true, false⟩,
        .dailyRotateFile ⟨pathJoin (pathJoin "app" "logs") "server-log",
          "yyyy-MM-dd.log", .silly, true, true, true, 5⟩] .info "hello")
    (by decide) (by rfl) (by rfl)
    ⟨.dailyRotateFile ⟨pathJoin (pathJoin "app" "logs") "server-log",
      "yyyy-MM-dd.log", .silly, true, true, true, 5⟩, .info, "hello"⟩
    (by decide) _ (by rfl)

/-- C7 counterexample: the claim quantifies over every pair of
configurations, but for `c1 = { console: { level: silly } }` and
`c2 = { file: { path: 'app', level: silly, logAsJson: true,
maxFileCount: 5 } }` (no `console`), `init(c1)` then `init(c2)` is not
the same as `init(c2)` alone: `init(c2)` throws a `TypeError` before
assigning `_logger`, so the second call keeps the sinks of `c1`, while a
single `init(c2)` leaves the logger uninitialized. -/
theorem init_replace_counterexample :
    (AppLogger.init
        (AppLogger.init AppLogger.mkNew ⟨some ⟨.silly⟩, none⟩ []).1.1
        ⟨none, some ⟨"app", .silly, true, 5⟩⟩ []).1.1
      ≠ (AppLogger.init AppLogger.mkNew
          ⟨none, some ⟨"app", .silly, true, 5⟩⟩ []).1.1 := by
  decide

/-- C7 amended: for every pair of configurations `c1`, `c2` such that
`init` accepts `c2` (its `console` section is present — required because
the code reads `params.console.level` unconditionally), calling
`init(c1)` and then `init(c2)` leaves the instance in exactly the state
a single `init(c2)` produces, whatever filesystem each call ran in:
sinks are replaced, never accumulated. -/
theorem init_replaces_sinks (c1 c2 : ILoggerParams) (c : ConsoleParams)
    (hc : c2.console = some c) (fs1 fs2 fs3 : FsState) :
    (AppLogger.init
        (AppLogger.init AppLogger.mkNew c1 fs1).1.1 c2 fs2).1.1
      = (AppLogger.init AppLogger.mkNew c2 fs3).1.1 := by
  rcases c2 with ⟨co, cf⟩
  cases hc
  rcases cf with - | ⟨P, Lf, j, n⟩
  · rfl
  · by_cases hP : P = "" <;>
      simp [AppLogger.init, AppLogger._getTransports, hP,
        AppLogger._initializeStreams]

/-- Closed witness for `init_replaces_sinks`: re-initializing from a
console-only configuration to a file-and-console configuration yields
the same instance state as initializing once with the latter. -/
theorem init_replaces_sinks_witness :
    (AppLogger.init
        (AppLogger.init AppLogger.mkNew ⟨some ⟨.silly⟩, none⟩ []).1.1
        ⟨some ⟨.warn⟩, some ⟨"app", .debug, true, 5⟩⟩ []).1.1
      = (AppLogger.init AppLogger.mkNew
          ⟨some ⟨.warn⟩, some ⟨"app", .debug, true, 5⟩⟩ ["app/logs"]).1.1 :=
  init_replaces_sinks ⟨some ⟨.silly⟩, none⟩
    ⟨some ⟨.warn⟩, some ⟨"app", .debug, true, 5⟩⟩ ⟨.warn⟩ rfl [] [] ["app/logs"]

/-- C8: the static `Log` getter is idempotent and the class is a
singleton: a second access returns the identical instance (same
allocation number and same field state) and changes nothing, allocating
no further instance; the first access on a fresh process constructs
exactly one instance, in the uninitialized state (`_logger` and
`morganWriteStream` both undefined). -/
theorem singleton_identity :
    (∀ s : AppLoggerProcess,
      AppLogger.Log (AppLogger.Log s).2
        = ((AppLogger.Log s).1, (AppLogger.Log s).2)) ∧
      (AppLogger.Log AppLoggerProcess.fresh).1 = (0, AppLogger.mkNew) ∧
      (AppLogger.Log AppLoggerProcess.fresh).2
        = ⟨some (0, AppLogger.mkNew), 1⟩ := by
  refine ⟨fun s => ?_, rfl, rfl⟩
  rcases s with ⟨_ | i, a⟩ <;> rfl

/-- C9: after any successful `init`, the write-stream adapter is
defined, and calling its `write(m)` has exactly the observable effect of
calling `info(m)` on the instance: the adapter's `write` is the closure
`(message) => this.info(message)` installed by `_initializeStreams`. -/
theorem morgan_write_forwards_to_info (st0 : AppLogger)
    (params : ILoggerParams) (fs fs' : FsState) (st : AppLogger)
    (hinit : AppLogger.init st0 params fs = ((st, fs'), none)) :
    ∀ msg : String, AppLogger.morganWrite st msg = AppLogger.info st msg := by
  intro msg
  unfold AppLogger.init at hinit
  rcases h : AppLogger._getTransports params fs with e | ⟨ts, fs''⟩ <;>
    rw [h] at hinit
  · exact absurd hinit (by simp)
  · have hst : st = AppLogger._initializeStreams
        { st0 with _logger := some ⟨ts, false⟩ } :=
      (congrArg (fun p : (AppLogger × FsState) × Option JsError => p.1.1)
        hinit).symm
    rw [hst]
    rfl

/-- Closed witness for `morgan_write_forwards_to_info` after the
console-only initialization. -/
theorem morgan_write_forwards_to_info_witness :
    AppLogger.morganWrite
        ((AppLogger.init AppLogger.mkNew ⟨some ⟨.silly⟩, none⟩ []).1.1) "m"
      = AppLogger.info
        ((AppLogger.init AppLogger.mkNew ⟨some ⟨.silly⟩, none⟩ []).1.1) "m" :=
  morgan_write_forwards_to_info AppLogger.mkNew ⟨some ⟨.silly⟩, none⟩ []
    [] ((AppLogger.init AppLogger.mkNew ⟨some ⟨.silly⟩, none⟩ []).1.1)
    (by rfl) "m"

/-- C10: in every reachable instance state, the backend logger and the
write-stream adapter are defined together: `_logger` is defined exactly
when `morganWriteStream` is; a reachable state with `_logger` undefined
is exactly the freshly constructed state (so before any successful
`init` the adapter is undefined); and every `init` call that completes
without throwing leaves both defined. -/
theorem initialized_fields_invariant :
    (∀ st, Reachable st →
      (st._logger.isSome ↔ st.morganWriteStream.isSome) ∧
        (st._logger = none → st = AppLogger.mkNew)) ∧
      (∀ (st0 : AppLogger) (params : ILoggerParams) (fs fs' : FsState)
        (st : AppLogger),
        AppLogger.init st0 params fs = ((st, fs'), none) →
          st._logger.isSome = true ∧ st.morganWriteStream.isSome = true) := by
  have hsucc : ∀ (st0 : AppLogger) (params : ILoggerParams)
      (fs fs' : FsState) (st : AppLogger),
      AppLogger.init st0 params fs = ((st, fs'), none) →
        st._logger.isSome = true ∧ st.morganWriteStream.isSome = true := by
    intro st0 params fs fs' st hinit
    unfold AppLogger.init at hinit
    rcases h : AppLogger._getTransports params fs with e | ⟨ts, fs''⟩ <;>
      rw [h] at hinit
    · exact absurd hinit (by simp)
    · have hst : st = AppLogger._initializeStreams
          { st0 with _logger := some ⟨ts, false⟩ } :=
        (congrArg (fun p : (AppLogger × FsState) × Option JsError => p.1.1)
          hinit).symm
      rw [hst]
      exact ⟨rfl, rfl⟩
  refine ⟨fun st hr => ?_, hsucc⟩
  induction hr with
  | new => exact ⟨Iff.rfl, fun _ => rfl⟩
  | initStep st' params fs _ ih =>
    rcases h : AppLogger.init st' params fs with ⟨⟨st'', fs''⟩, - | e⟩
    · have hss := hsucc st' params fs fs'' st'' h
      refine ⟨iff_of_true hss.1 hss.2, fun hn => ?_⟩
      obtain ⟨x, hx⟩ := Option.isSome_iff_exists.mp hss.1
      rw [hn] at hx
      cases hx
    · have hunch : st' = st'' := by
        unfold AppLogger.init at h
        rcases hg : AppLogger._getTransports params fs with g | ⟨ts, fsg⟩ <;>
          rw [hg] at h
        · exact congrArg
            (fun p : (AppLogger × FsState) × Option JsError => p.1.1) h
        · exact absurd h (by simp)
      exact hunch ▸ ih

/-- Closed witness for `initialized_fields_invariant`: the invariant at
the freshly constructed state, and the successful-`init` clause at a
concrete console-only initialization. -/
theorem initialized_fields_invariant_witness :
    ((AppLogger.mkNew._logger.isSome ↔
        AppLogger.mkNew.morganWriteStream.isSome) ∧
      (AppLogger.mkNew._logger = none → AppLogger.mkNew = AppLogger.mkNew)) ∧
      (((AppLogger.init AppLogger.mkNew ⟨some ⟨.silly⟩, none⟩ []).1.1
          )._logger.isSome = true ∧
        ((AppLogger.init AppLogger.mkNew ⟨some ⟨.silly⟩, none⟩ []).1.1
          ).morganWriteStream.isSome = true) :=
  ⟨initialized_fields_invariant.1 AppLogger.mkNew Reachable.new,
    initialized_fields_invariant.2 AppLogger.mkNew ⟨some ⟨.silly⟩, none⟩
      [] []
      ((AppLogger.init AppLogger.mkNew ⟨some ⟨.silly⟩, none⟩ []).1.1)
      (by rfl)⟩
